import Mathlib

/-!
Shallow embedding of `src/data/power.rs` (energy-sampling core of the
`jolt` power monitor).

Numeric model: the Rust code computes energies and wattages in `f64`/`f32`;
we model those quantities over `ℚ`, keeping every arithmetic expression
exactly as written in the source (`value / 1_000.0`, `elapsed.max(0.001)`,
sums per domain, ...).  Native handles (snapshots, the channel dictionary,
the subscription) are opaque; we model them by identifiers and track their
acquisition/release discipline by an explicit event trace.  External
effects (the native sampling calls, `pmset` output, sysinfo CPU usage) are
passed in as environment values, mirroring exactly how the code branches
on their success or failure.
-/

namespace Jolt

/-- Enum `PowerMode` from power.rs: enum with the four power-management modes. -/
inductive PowerMode where
  | lowPower
  | automatic
  | highPerformance
  | unknown
deriving DecidableEq, Repr

/-- Struct `ChannelData` from power.rs: one decoded channel record
(name, unit label, simple integer value). -/
structure ChannelData where
  name : String
  unit : String
  value : Int
deriving DecidableEq, Repr

/-- Substring search on character lists: `substrAt needle hay = true` iff
`needle` occurs contiguously inside `hay`.  This embeds Rust's
`str::contains` for string-pattern arguments. -/
def substrAt (needle : List Char) : List Char → Bool
  | [] => needle.isEmpty
  | c :: rest => needle.isPrefixOf (c :: rest) || substrAt needle rest

/-- Rust `hay.contains(needle)` on strings. -/
def containsSub (hay needle : String) : Bool :=
  substrAt needle.data hay.data

/-- Rust `str::to_lowercase()`; for the ASCII channel names involved here
this is per-character lowercasing. -/
def lowerStr (s : String) : String :=
  ⟨s.data.map Char.toLower⟩

/-- Function `energy_to_joules` from power.rs, verbatim: `mJ → v/1e3`,
`uJ → v/1e6`, `nJ → v/1e9`, anything else `→ v/1e6`. -/
def energy_to_joules (value : Int) (unit : String) : ℚ :=
  let val : ℚ := (value : ℚ)
  if unit = "mJ" then val / 1000
  else if unit = "uJ" then val / 1000000
  else if unit = "nJ" then val / 1000000000
  else val / 1000000

/-- The three per-domain energy accumulators of
`calculate_power_from_delta` (`cpu_energy`, `gpu_energy`, `ane_energy`). -/
structure EnergySums where
  cpu : ℚ
  gpu : ℚ
  ane : ℚ
deriving DecidableEq, Repr

/-- The joules contributed by one channel
(`energy_to_joules(channel.value, &channel.unit)`). -/
def joulesOf (c : ChannelData) : ℚ :=
  energy_to_joules c.value c.unit

/-- One iteration of the channel loop in `calculate_power_from_delta`:
lowercase the name, then the if/else-if chain
`cpu && !gpu` / `gpu` / `ane`. -/
def sumChannel (acc : EnergySums) (c : ChannelData) : EnergySums :=
  if containsSub (lowerStr c.name) "cpu" && !containsSub (lowerStr c.name) "gpu" then
    { acc with cpu := acc.cpu + joulesOf c }
  else if containsSub (lowerStr c.name) "gpu" then
    { acc with gpu := acc.gpu + joulesOf c }
  else if containsSub (lowerStr c.name) "ane" then
    { acc with ane := acc.ane + joulesOf c }
  else acc

/-- The whole channel loop of `calculate_power_from_delta`, starting from
zero accumulators. -/
def sumEnergies (chans : List ChannelData) : EnergySums :=
  chans.foldl sumChannel ⟨0, 0, 0⟩

/-- Struct `PowerData` from power.rs.  `subscription` records whether the
`Option<IOReportSubscription>` is `Some`; `last_sample` holds the identity
of the retained previous snapshot; `last_sample_time` its capture time in
seconds. -/
structure PowerData where
  subscription : Bool
  last_sample : Option Nat
  last_sample_time : Option ℚ
  cpu_power : ℚ
  gpu_power : ℚ
  ane_power : ℚ
  total_system_power : ℚ
  power_mode : PowerMode
deriving DecidableEq, Repr

/-- Function `fallback_power_estimate` from power.rs.  `cpuUsages` is the list of
per-logical-core utilisation percentages delivered by sysinfo; the code
averages them (`sum / len`), then sets
`cpu = 2.0 + (usage/100) * 15.0`, `gpu = 1.0`, `ane = 0.0`,
`total = cpu + gpu`. -/
def fallback_power_estimate (s : PowerData) (cpuUsages : List ℚ) : PowerData :=
  let cpu_usage : ℚ := cpuUsages.sum / (cpuUsages.length : ℚ)
  let base_power : ℚ := 2
  let max_cpu_power : ℚ := 15
  let cpu := base_power + (cpu_usage / 100) * max_cpu_power
  { s with
    cpu_power := cpu
    gpu_power := 1
    ane_power := 0
    total_system_power := cpu + 1 }

/-- Function `calculate_power_from_delta` from power.rs.  The delta result is
`none` when `IOReportCreateSamplesDelta` returns null (→ fallback);
`some none` when the delta dictionary lacks the `IOReportChannels` list
(`IOReportIterator::new` fails, the loop body never runs, sums stay 0);
`some (some chans)` when the channel list is present. -/
def calculate_power_from_delta (s : PowerData)
    (delta : Option (Option (List ChannelData))) (elapsed : ℚ)
    (cpuUsages : List ℚ) : PowerData :=
  match delta with
  | none => fallback_power_estimate s cpuUsages
  | some channelList =>
    let sums : EnergySums :=
      match channelList with
      | none => ⟨0, 0, 0⟩
      | some chans => sumEnergies chans
    let seconds := max elapsed (1 / 1000 : ℚ)
    let cpu := sums.cpu / seconds
    let gpu := sums.gpu / seconds
    let ane := sums.ane / seconds
    { s with
      cpu_power := cpu
      gpu_power := gpu
      ane_power := ane
      total_system_power := cpu + gpu + ane }

/-- Environment of one `refresh_power_metrics` call: outcome of
`subscription.sample()` (fresh snapshot id or failure), outcome of the
native delta call, the elapsed seconds since the previous capture, the
sysinfo core-utilisation list (used only on fallback paths), and the
current time stored with the new snapshot. -/
structure RefreshEnv where
  sampleResult : Option Nat
  deltaResult : Option (Option (List ChannelData))
  elapsed : ℚ
  cpuUsages : List ℚ
  now : ℚ
deriving Repr

/-- Function `refresh_power_metrics` from power.rs: no subscription → fallback;
sample failure → fallback; no retained previous snapshot/time → store the
new snapshot and return with powers untouched; otherwise compute from the
delta, release the previous snapshot and retain the new one. -/
def refresh_power_metrics (s : PowerData) (env : RefreshEnv) : PowerData :=
  if s.subscription = false then fallback_power_estimate s env.cpuUsages
  else
    match env.sampleResult with
    | none => fallback_power_estimate s env.cpuUsages
    | some current =>
      match s.last_sample, s.last_sample_time with
      | some _, some _ =>
        let s2 := calculate_power_from_delta s env.deltaResult env.elapsed env.cpuUsages
        { s2 with last_sample := some current, last_sample_time := some env.now }
      | _, _ =>
        { s with last_sample := some current, last_sample_time := some env.now }

/-- Function `refresh_power_mode` from power.rs.  `cmdOutput` is `none` when
`Command::new("pmset")...output()` returns `Err` (mode untouched), and
`some stdout` otherwise (`from_utf8_lossy` never fails). -/
def refresh_power_mode (s : PowerData) (cmdOutput : Option String) : PowerData :=
  match cmdOutput with
  | none => s
  | some stdout =>
    if containsSub stdout "lowpowermode 1" then { s with power_mode := PowerMode.lowPower }
    else if containsSub stdout "highpowermode 1" then
      { s with power_mode := PowerMode.highPerformance }
    else { s with power_mode := PowerMode.automatic }

/-- Environment of `PowerData::new`: whether `IOReportSubscription::new()`
succeeded, the result of the construction-time `sample()` call, the
construction time, and the `pmset` output for the initial mode probe. -/
structure NewEnv where
  subscriptionOk : Bool
  initialSample : Option Nat
  startTime : ℚ
  cmdOutput : Option String
deriving Repr

/-- Constructor `PowerData::new` from power.rs: open the subscription, immediately
take a first sample (`last_sample`) and timestamp it, zero all wattages,
start in mode `Unknown`, then run the mode probe.  The Rust function
returns `Ok` in every case. -/
def PowerData.new (env : NewEnv) : PowerData :=
  let ls : Option Nat := if env.subscriptionOk then env.initialSample else none
  let s : PowerData :=
    { subscription := env.subscriptionOk
      last_sample := ls
      last_sample_time := ls.map (fun _ => env.startTime)
      cpu_power := 0
      gpu_power := 0
      ane_power := 0
      total_system_power := 0
      power_mode := PowerMode.unknown }
  refresh_power_mode s env.cmdOutput

/-- Method `PowerData::refresh` from power.rs: metrics first, then the mode
probe; always returns `Ok`. -/
def PowerData.refresh (s : PowerData) (env : RefreshEnv)
    (cmdOutput : Option String) : PowerData :=
  refresh_power_mode (refresh_power_metrics s env) cmdOutput

/-- Reachable facade states: any constructed state, and any state reached
from a reachable state by a `refresh` under some environment. -/
inductive Reachable : PowerData → Prop where
  | init (env : NewEnv) : Reachable (PowerData.new env)
  | step (s : PowerData) (env : RefreshEnv) (cmdOutput : Option String) :
      Reachable s → Reachable (PowerData.refresh s env cmdOutput)

/-! Resource model: every native handle the facade touches, and an event
trace of `CFRelease`-style acquisitions and releases, read off the code
path by path. -/

/-- The native handles of power.rs: the channel group dictionary returned
by `IOReportCopyChannelsInGroup` (`chan`), its mutable copy (`channels`),
the subscription object, and the numbered snapshot and delta-snapshot
dictionaries. -/
inductive Res where
  | chanDict
  | channels
  | subscription
  | snapshot (i : Nat)
  | delta (i : Nat)
deriving DecidableEq, Repr

/-- Acquisition or release of a native handle. -/
inductive Ev where
  | acquire (r : Res)
  | release (r : Res)
deriving DecidableEq, Repr

/-- Environment of `IOReportSubscription::new`: which of the four native
calls succeed (return non-null / find the key). -/
structure SubEnv where
  chanOk : Bool
  chanHasChannels : Bool
  copyOk : Bool
  subscriptionOk : Bool
deriving Repr

/-- Event trace of `IOReportSubscription::new` and whether it returns
`Some`, following the code line by line: acquire `chan`; if the
`IOReportChannels` key is missing release it and fail; make the mutable
copy, release `chan`; if the copy is null fail (nothing further was
acquired); create the subscription; if null release `channels` and fail;
otherwise keep `channels` and `subscription`. -/
def subscriptionNewTrace (e : SubEnv) : List Ev × Bool :=
  if !e.chanOk then ([], false)
  else if !e.chanHasChannels then
    ([Ev.acquire Res.chanDict, Ev.release Res.chanDict], false)
  else if !e.copyOk then
    ([Ev.acquire Res.chanDict, Ev.release Res.chanDict], false)
  else if !e.subscriptionOk then
    ([Ev.acquire Res.chanDict, Ev.acquire Res.channels, Ev.release Res.chanDict,
      Ev.release Res.channels], false)
  else
    ([Ev.acquire Res.chanDict, Ev.acquire Res.channels, Ev.release Res.chanDict,
      Ev.acquire Res.subscription], true)

/-- Native-call outcomes during one `refresh_power_metrics`. -/
structure MetricsEnv where
  sampleOk : Bool
  deltaOk : Bool
  deltaHasChannels : Bool
deriving Repr

/-- Handle-tracking state across refreshes: whether a subscription is
held, which snapshot is retained as previous, and fresh ids. -/
structure TraceState where
  hasSub : Bool
  lastSnap : Option Nat
  nextSnap : Nat
  nextDelta : Nat
deriving DecidableEq, Repr

/-- Event trace of one `refresh_power_metrics` call.  With a subscription
and a successful sample a snapshot is acquired; with no previous snapshot
it is simply retained.  Otherwise `calculate_power_from_delta` runs: if
`IOReportCreateSamplesDelta` returns null nothing is acquired; if the
delta has an `IOReportChannels` list, `IOReportIterator` takes ownership
and its `Drop` releases the delta; if the list is missing,
`IOReportIterator::new` returns `None` and no release of the delta ever
happens.  In all three cases the previous snapshot is then released and
the new one retained. -/
def refreshMetricsTrace (st : TraceState) (e : MetricsEnv) : List Ev × TraceState :=
  if !st.hasSub then ([], st)
  else if !e.sampleOk then ([], st)
  else
    match st.lastSnap with
    | none =>
      ([Ev.acquire (Res.snapshot st.nextSnap)],
       { st with lastSnap := some st.nextSnap, nextSnap := st.nextSnap + 1 })
    | some prev =>
      let deltaPart : List Ev × Nat :=
        if !e.deltaOk then ([], st.nextDelta)
        else if e.deltaHasChannels then
          ([Ev.acquire (Res.delta st.nextDelta), Ev.release (Res.delta st.nextDelta)],
           st.nextDelta + 1)
        else
          ([Ev.acquire (Res.delta st.nextDelta)], st.nextDelta + 1)
      (Ev.acquire (Res.snapshot st.nextSnap) :: deltaPart.1 ++
         [Ev.release (Res.snapshot prev)],
       { hasSub := st.hasSub
         lastSnap := some st.nextSnap
         nextSnap := st.nextSnap + 1
         nextDelta := deltaPart.2 })

/-- Full-lifetime event trace of one facade: `IOReportSubscription::new`,
the construction-time sample, each `refresh`, then the two `Drop` impls —
`PowerData::drop` releases the retained snapshot, and
`IOReportSubscription::drop` releases only `channels` (the code has no
release of the subscription object itself). -/
def lifecycleTrace (se : SubEnv) (initialSampleOk : Bool)
    (refreshes : List MetricsEnv) : List Ev :=
  let sub := subscriptionNewTrace se
  let init : List Ev × TraceState :=
    if sub.2 && initialSampleOk then
      ([Ev.acquire (Res.snapshot 0)], ⟨sub.2, some 0, 1, 0⟩)
    else
      ([], ⟨sub.2, none, 0, 0⟩)
  let run : List Ev × TraceState :=
    refreshes.foldl
      (fun acc e =>
        let step := refreshMetricsTrace acc.2 e
        (acc.1 ++ step.1, step.2))
      init
  let dropEvs : List Ev :=
    (match run.2.lastSnap with
     | some i => [Ev.release (Res.snapshot i)]
     | none => []) ++
    (if sub.2 then [Ev.release Res.channels] else [])
  sub.1 ++ run.1 ++ dropEvs

/-- Number of acquisitions of handle `r` in trace `t`. -/
def acqCount (t : List Ev) (r : Res) : Nat :=
  (t.filter (fun e => e = Ev.acquire r)).length

/-- Number of releases of handle `r` in trace `t`. -/
def relCount (t : List Ev) (r : Res) : Nat :=
  (t.filter (fun e => e = Ev.release r)).length

/-- A concrete facade lifetime: subscription opens, construction sample
succeeds, one refresh whose sample and delta calls succeed but whose
delta dictionary lacks the `IOReportChannels` list, then the facade is
dropped. -/
def leakTrace : List Ev :=
  lifecycleTrace ⟨true, true, true, true⟩ true [⟨true, true, false⟩]

/-! Spec-side classification predicates, written from the spec's words
("a name containing cpu and not gpu counts toward CPU; otherwise a name
containing gpu counts toward GPU; otherwise a name containing ane counts
toward ANE"), to be compared with the source-side accumulator loop. -/

/-- Spec wording: the name contains "cpu" and does not contain "gpu". -/
def specCpuName (n : String) : Bool :=
  containsSub n "cpu" && !containsSub n "gpu"

/-- Spec wording: otherwise, the name contains "gpu".  Since the CPU rule
already excludes every "gpu"-containing name, the "otherwise" adds
nothing here. -/
def specGpuName (n : String) : Bool :=
  containsSub n "gpu"

/-- Spec wording: otherwise (neither of the first two rules fired), the
name contains "ane". -/
def specAneName (n : String) : Bool :=
  !containsSub n "cpu" && !containsSub n "gpu" && containsSub n "ane"

/-- Concrete facade state for claim C2: constructed with a working
subscription whose construction-time sample succeeded (snapshot 0 at
time 0); the mode probe fails so the state stays fully determined. -/
def cexState0 : PowerData :=
  PowerData.new ⟨true, some 0, 0, none⟩

/-- Concrete refresh environment for claim C2: the sample succeeds
(snapshot 1), the delta contains a single channel "CPU Energy" worth
1000 mJ, one second has elapsed. -/
def cexEnv : RefreshEnv :=
  ⟨some 1, some (some [⟨"CPU Energy", "mJ", 1000⟩]), 1, [0], 1⟩

/-! Helper lemmas shared by several claims. -/

/-- One loop iteration touches the `cpu` accumulator exactly on the
spec's CPU rule. -/
lemma sumChannel_cpu (acc : EnergySums) (c : ChannelData) :
    (sumChannel acc c).cpu =
      if specCpuName (lowerStr c.name) then acc.cpu + joulesOf c else acc.cpu := by
  unfold sumChannel specCpuName
  by_cases hc : containsSub (lowerStr c.name) "cpu" = true <;>
  by_cases hg : containsSub (lowerStr c.name) "gpu" = true <;>
  by_cases ha : containsSub (lowerStr c.name) "ane" = true <;>
  simp [hc, hg, ha]

/-- One loop iteration touches the `gpu` accumulator exactly on the
spec's GPU rule. -/
lemma sumChannel_gpu (acc : EnergySums) (c : ChannelData) :
    (sumChannel acc c).gpu =
      if specGpuName (lowerStr c.name) then acc.gpu + joulesOf c else acc.gpu := by
  unfold sumChannel specGpuName
  by_cases hc : containsSub (lowerStr c.name) "cpu" = true <;>
  by_cases hg : containsSub (lowerStr c.name) "gpu" = true <;>
  by_cases ha : containsSub (lowerStr c.name) "ane" = true <;>
  simp [hc, hg, ha]

/-- One loop iteration touches the `ane` accumulator exactly on the
spec's ANE rule. -/
lemma sumChannel_ane (acc : EnergySums) (c : ChannelData) :
    (sumChannel acc c).ane =
      if specAneName (lowerStr c.name) then acc.ane + joulesOf c else acc.ane := by
  unfold sumChannel specAneName
  by_cases hc : containsSub (lowerStr c.name) "cpu" = true <;>
  by_cases hg : containsSub (lowerStr c.name) "gpu" = true <;>
  by_cases ha : containsSub (lowerStr c.name) "ane" = true <;>
  simp [hc, hg, ha]

/-- The channel loop, run from any accumulator, adds to `cpu` exactly the
joules of the records satisfying the spec's CPU rule. -/
lemma foldl_sumChannel_cpu (chans : List ChannelData) (acc : EnergySums) :
    (List.foldl sumChannel acc chans).cpu =
      acc.cpu + ((chans.filter fun c => specCpuName (lowerStr c.name)).map joulesOf).sum := by
  induction chans generalizing acc with
  | nil => simp
  | cons c rest ih =>
    rw [List.foldl_cons, ih, sumChannel_cpu]
    by_cases h : specCpuName (lowerStr c.name) = true
    · simp [h, List.filter_cons, add_assoc]
    · simp [h, List.filter_cons]

/-- The channel loop, run from any accumulator, adds to `gpu` exactly the
joules of the records satisfying the spec's GPU rule. -/
lemma foldl_sumChannel_gpu (chans : List ChannelData) (acc : EnergySums) :
    (List.foldl sumChannel acc chans).gpu =
      acc.gpu + ((chans.filter fun c => specGpuName (lowerStr c.name)).map joulesOf).sum := by
  induction chans generalizing acc with
  | nil => simp
  | cons c rest ih =>
    rw [List.foldl_cons, ih, sumChannel_gpu]
    by_cases h : specGpuName (lowerStr c.name) = true
    · simp [h, List.filter_cons, add_assoc]
    · simp [h, List.filter_cons]

/-- The channel loop, run from any accumulator, adds to `ane` exactly the
joules of the records satisfying the spec's ANE rule. -/
lemma foldl_sumChannel_ane (chans : List ChannelData) (acc : EnergySums) :
    (List.foldl sumChannel acc chans).ane =
      acc.ane + ((chans.filter fun c => specAneName (lowerStr c.name)).map joulesOf).sum := by
  induction chans generalizing acc with
  | nil => simp
  | cons c rest ih =>
    rw [List.foldl_cons, ih, sumChannel_ane]
    by_cases h : specAneName (lowerStr c.name) = true
    · simp [h, List.filter_cons, add_assoc]
    · simp [h, List.filter_cons]

/-- The mode probe never touches the wattage fields. -/
lemma refresh_power_mode_powers (s : PowerData) (o : Option String) :
    (refresh_power_mode s o).cpu_power = s.cpu_power ∧
    (refresh_power_mode s o).gpu_power = s.gpu_power ∧
    (refresh_power_mode s o).ane_power = s.ane_power ∧
    (refresh_power_mode s o).total_system_power = s.total_system_power := by
  cases o with
  | none => exact ⟨rfl, rfl, rfl, rfl⟩
  | some stdout =>
    unfold refresh_power_mode
    by_cases h1 : containsSub stdout "lowpowermode 1" = true <;>
    by_cases h2 : containsSub stdout "highpowermode 1" = true <;>
    simp [h1, h2]

/-- The mode probe never touches the snapshot or subscription fields. -/
lemma refresh_power_mode_snapshot (s : PowerData) (o : Option String) :
    (refresh_power_mode s o).last_sample = s.last_sample ∧
    (refresh_power_mode s o).last_sample_time = s.last_sample_time ∧
    (refresh_power_mode s o).subscription = s.subscription := by
  cases o with
  | none => exact ⟨rfl, rfl, rfl⟩
  | some stdout =>
    unfold refresh_power_mode
    by_cases h1 : containsSub stdout "lowpowermode 1" = true <;>
    by_cases h2 : containsSub stdout "highpowermode 1" = true <;>
    simp [h1, h2]

/-- The mode probe preserves the total-is-sum invariant. -/
lemma refresh_power_mode_total_inv (s : PowerData) (o : Option String)
    (h : s.total_system_power = s.cpu_power + s.gpu_power + s.ane_power) :
    (refresh_power_mode s o).total_system_power =
      (refresh_power_mode s o).cpu_power + (refresh_power_mode s o).gpu_power +
        (refresh_power_mode s o).ane_power := by
  obtain ⟨hc, hg, ha, ht⟩ := refresh_power_mode_powers s o
  rw [hc, hg, ha, ht]
  exact h

/-- The fallback estimator establishes the total-is-sum invariant
(its `ane_power` is 0, so `cpu + gpu = cpu + gpu + ane`). -/
lemma fallback_total_inv (s : PowerData) (u : List ℚ) :
    (fallback_power_estimate s u).total_system_power =
      (fallback_power_estimate s u).cpu_power + (fallback_power_estimate s u).gpu_power +
        (fallback_power_estimate s u).ane_power := by
  unfold fallback_power_estimate
  simp

/-- Delta aggregation establishes the total-is-sum invariant. -/
lemma calculate_total_inv (s : PowerData) (d : Option (Option (List ChannelData)))
    (e : ℚ) (u : List ℚ) :
    (calculate_power_from_delta s d e u).total_system_power =
      (calculate_power_from_delta s d e u).cpu_power +
        (calculate_power_from_delta s d e u).gpu_power +
        (calculate_power_from_delta s d e u).ane_power := by
  cases d with
  | none => exact fallback_total_inv s u
  | some cl =>
    unfold calculate_power_from_delta
    simp

/-- One metrics refresh preserves the total-is-sum invariant. -/
lemma refresh_metrics_total_inv (s : PowerData) (env : RefreshEnv)
    (h : s.total_system_power = s.cpu_power + s.gpu_power + s.ane_power) :
    (refresh_power_metrics s env).total_system_power =
      (refresh_power_metrics s env).cpu_power + (refresh_power_metrics s env).gpu_power +
        (refresh_power_metrics s env).ane_power := by
  unfold refresh_power_metrics
  by_cases hs : s.subscription = false
  · simp only [hs, if_true]
    exact fallback_total_inv s env.cpuUsages
  · simp only [hs, if_false]
    cases env.sampleResult with
    | none => exact fallback_total_inv s env.cpuUsages
    | some current =>
      cases hls : s.last_sample with
      | none => simpa using h
      | some p =>
        cases hlt : s.last_sample_time with
        | none => simpa using h
        | some t =>
          simpa using calculate_total_inv s env.deltaResult env.elapsed env.cpuUsages

/-- Claim C3: in every reachable facade state — after construction, after
any successful aggregation and after any fallback estimate —
`total_system_power` equals `cpu_power + gpu_power + ane_power`; there is
no independently-stale total. -/
theorem c3_total_is_sum (s : PowerData) (h : Reachable s) :
    s.total_system_power = s.cpu_power + s.gpu_power + s.ane_power := by
  induction h with
  | init env =>
    unfold PowerData.new
    exact refresh_power_mode_total_inv _ env.cmdOutput (by norm_num)
  | step s env out hs ih =>
    unfold PowerData.refresh
    exact refresh_power_mode_total_inv _ out (refresh_metrics_total_inv s env ih)

/-- Witness for C3 at a concrete reachable state. -/
theorem c3_total_is_sum_witness :
    Reachable (PowerData.new ⟨false, none, 0, none⟩) ∧
    (PowerData.new ⟨false, none, 0, none⟩).total_system_power =
      (PowerData.new ⟨false, none, 0, none⟩).cpu_power +
        (PowerData.new ⟨false, none, 0, none⟩).gpu_power +
        (PowerData.new ⟨false, none, 0, none⟩).ane_power :=
  ⟨Reachable.init _, c3_total_is_sum _ (Reachable.init _)⟩

/-- Claim C4: every channel record is classified by a case-insensitive
substring match with the precedence cpu-and-not-gpu → CPU, otherwise
gpu → GPU, otherwise ane → ANE; records matching none of the rules
contribute to no domain sum. -/
theorem c4_domain_classification (chans : List ChannelData) :
    (sumEnergies chans).cpu =
        ((chans.filter fun c => specCpuName (lowerStr c.name)).map joulesOf).sum ∧
    (sumEnergies chans).gpu =
        ((chans.filter fun c => specGpuName (lowerStr c.name)).map joulesOf).sum ∧
    (sumEnergies chans).ane =
        ((chans.filter fun c => specAneName (lowerStr c.name)).map joulesOf).sum := by
  refine ⟨?_, ?_, ?_⟩
  · simp [sumEnergies, foldl_sumChannel_cpu]
  · simp [sumEnergies, foldl_sumChannel_gpu]
  · simp [sumEnergies, foldl_sumChannel_ane]

/-- Claim C5: joule conversion is `v/1e3` for mJ, `v/1e6` for uJ,
`v/1e9` for nJ and `v/1e6` for any other label, with the four concrete
instances of the spec evaluated. -/
theorem c5_unit_conversion :
    (∀ v : Int, energy_to_joules v "mJ" = (v : ℚ) / 1000) ∧
    (∀ v : Int, energy_to_joules v "uJ" = (v : ℚ) / 1000000) ∧
    (∀ v : Int, energy_to_joules v "nJ" = (v : ℚ) / 1000000000) ∧
    (∀ (v : Int) (u : String), u ≠ "mJ" → u ≠ "uJ" → u ≠ "nJ" →
      energy_to_joules v u = (v : ℚ) / 1000000) ∧
    energy_to_joules 1000 "mJ" = 1 ∧
    energy_to_joules 1000000 "uJ" = 1 ∧
    energy_to_joules 1000000000 "nJ" = 1 ∧
    energy_to_joules 2000000 "mW" = 2 := by
  refine ⟨fun v => by simp [energy_to_joules],
          fun v => by simp [energy_to_joules],
          fun v => by simp [energy_to_joules],
          fun v u h1 h2 h3 => by simp [energy_to_joules, h1, h2, h3],
          by norm_num [energy_to_joules],
          by simp [energy_to_joules],
          by simp [energy_to_joules],
          by
            simp [energy_to_joules]
            norm_num⟩

/-- Witness for C5 at a concrete unrecognized unit label. -/
theorem c5_unit_conversion_witness :
    energy_to_joules 7 "XJ" = (7 : ℚ) / 1000000 :=
  c5_unit_conversion.2.2.2.1 7 "XJ" (by decide) (by decide) (by decide)

/-- Claim C6: the elapsed-time divisor is clamped at 0.001 s; for any
elapsed duration at or below 1 ms each domain's watts is its joule sum
divided by 0.001, and the divisor is strictly positive (no division
blow-up). -/
theorem c6_elapsed_clamp (s : PowerData) (chans : List ChannelData)
    (elapsed : ℚ) (usages : List ℚ) (h : elapsed ≤ 1 / 1000) :
    (calculate_power_from_delta s (some (some chans)) elapsed usages).cpu_power =
        (sumEnergies chans).cpu / (1 / 1000) ∧
    (calculate_power_from_delta s (some (some chans)) elapsed usages).gpu_power =
        (sumEnergies chans).gpu / (1 / 1000) ∧
    (calculate_power_from_delta s (some (some chans)) elapsed usages).ane_power =
        (sumEnergies chans).ane / (1 / 1000) ∧
    (0 : ℚ) < max elapsed (1 / 1000) := by
  have hm : max elapsed (1 / 1000 : ℚ) = 1 / 1000 := max_eq_right h
  refine ⟨?_, ?_, ?_, ?_⟩
  · show (sumEnergies chans).cpu / max elapsed (1 / 1000) = (sumEnergies chans).cpu / (1 / 1000)
    rw [hm]
  · show (sumEnergies chans).gpu / max elapsed (1 / 1000) = (sumEnergies chans).gpu / (1 / 1000)
    rw [hm]
  · show (sumEnergies chans).ane / max elapsed (1 / 1000) = (sumEnergies chans).ane / (1 / 1000)
    rw [hm]
  · rw [hm]
    norm_num

/-- Witness for C6 at elapsed 0 with an empty channel list. -/
theorem c6_elapsed_clamp_witness :
    (calculate_power_from_delta ⟨true, none, none, 0, 0, 0, 0, PowerMode.unknown⟩
        (some (some [])) 0 []).cpu_power = (sumEnergies []).cpu / (1 / 1000) ∧
    (calculate_power_from_delta ⟨true, none, none, 0, 0, 0, 0, PowerMode.unknown⟩
        (some (some [])) 0 []).gpu_power = (sumEnergies []).gpu / (1 / 1000) ∧
    (calculate_power_from_delta ⟨true, none, none, 0, 0, 0, 0, PowerMode.unknown⟩
        (some (some [])) 0 []).ane_power = (sumEnergies []).ane / (1 / 1000) ∧
    (0 : ℚ) < max 0 (1 / 1000) :=
  c6_elapsed_clamp ⟨true, none, none, 0, 0, 0, 0, PowerMode.unknown⟩ [] 0 []
    (by norm_num)

/-- The mean of a nonempty list of values each in [0, 100] lies in
[0, 100]. -/
lemma mean_bounds (l : List ℚ) (hne : l ≠ [])
    (hb : ∀ u ∈ l, 0 ≤ u ∧ u ≤ 100) :
    0 ≤ l.sum / (l.length : ℚ) ∧ l.sum / (l.length : ℚ) ≤ 100 := by
  have hlen : 0 < (l.length : ℚ) := by
    have hp : 0 < l.length := List.length_pos.mpr hne
    exact_mod_cast hp
  constructor
  · exact div_nonneg (List.sum_nonneg fun u hu => (hb u hu).1) (le_of_lt hlen)
  · rw [div_le_iff₀ hlen]
    calc l.sum ≤ l.length • (100 : ℚ) :=
          List.sum_le_card_nsmul l 100 fun u hu => (hb u hu).2
      _ = (l.length : ℚ) * 100 := by rw [nsmul_eq_mul]
      _ = 100 * (l.length : ℚ) := by ring

/-- Claim C7: the fallback estimator sets
`cpu = 2 + (mean utilization / 100) * 15`, `gpu = 1`, `ane = 0` and
`total = cpu + gpu`; for core utilizations within [0, 100] the CPU watts
land in [2, 17]. -/
theorem c7_fallback_estimate (s : PowerData) (usages : List ℚ)
    (hne : usages ≠ []) (hb : ∀ u ∈ usages, 0 ≤ u ∧ u ≤ 100) :
    (fallback_power_estimate s usages).cpu_power =
        2 + (usages.sum / (usages.length : ℚ) / 100) * 15 ∧
    (fallback_power_estimate s usages).gpu_power = 1 ∧
    (fallback_power_estimate s usages).ane_power = 0 ∧
    (fallback_power_estimate s usages).total_system_power =
        (fallback_power_estimate s usages).cpu_power +
          (fallback_power_estimate s usages).gpu_power ∧
    2 ≤ (fallback_power_estimate s usages).cpu_power ∧
    (fallback_power_estimate s usages).cpu_power ≤ 17 := by
  obtain ⟨h0, h100⟩ := mean_bounds usages hne hb
  refine ⟨rfl, rfl, rfl, rfl, ?_, ?_⟩
  · show (2 : ℚ) ≤ 2 + (usages.sum / (usages.length : ℚ) / 100) * 15
    have hnn : 0 ≤ (usages.sum / (usages.length : ℚ) / 100) * 15 :=
      mul_nonneg (div_nonneg h0 (by norm_num)) (by norm_num)
    linarith
  · show (2 : ℚ) + (usages.sum / (usages.length : ℚ) / 100) * 15 ≤ 17
    have hd1 : usages.sum / (usages.length : ℚ) / 100 ≤ 1 := by
      rw [div_le_one (by norm_num : (0 : ℚ) < 100)]
      exact h100
    have hmul : (usages.sum / (usages.length : ℚ) / 100) * 15 ≤ 1 * 15 :=
      mul_le_mul_of_nonneg_right hd1 (by norm_num)
    linarith

/-- Witness for C7 at a single core running at 50 percent. -/
theorem c7_fallback_estimate_witness :
    2 ≤ (fallback_power_estimate ⟨false, none, none, 0, 0, 0, 0, PowerMode.unknown⟩
        [50]).cpu_power ∧
    (fallback_power_estimate ⟨false, none, none, 0, 0, 0, 0, PowerMode.unknown⟩
        [50]).cpu_power ≤ 17 := by
  have h := c7_fallback_estimate ⟨false, none, none, 0, 0, 0, 0, PowerMode.unknown⟩ [50]
    (by simp)
    (by
      intro u hu
      rw [List.mem_singleton] at hu
      subst hu
      norm_num)
  exact ⟨h.2.2.2.2.1, h.2.2.2.2.2⟩

/-- Claim C8: the mode probe maps output containing "lowpowermode 1" to
LowPower, otherwise output containing "highpowermode 1" to
HighPerformance, otherwise Automatic; a failed command leaves the state
(hence the mode) untouched, and on first run with a failed command the
mode is Unknown. -/
theorem c8_power_mode_probe (s : PowerData) (stdout : String) :
    refresh_power_mode s none = s ∧
    (containsSub stdout "lowpowermode 1" = true →
      (refresh_power_mode s (some stdout)).power_mode = PowerMode.lowPower) ∧
    (containsSub stdout "lowpowermode 1" = false →
      containsSub stdout "highpowermode 1" = true →
      (refresh_power_mode s (some stdout)).power_mode = PowerMode.highPerformance) ∧
    (containsSub stdout "lowpowermode 1" = false →
      containsSub stdout "highpowermode 1" = false →
      (refresh_power_mode s (some stdout)).power_mode = PowerMode.automatic) ∧
    (∀ env : NewEnv, env.cmdOutput = none →
      (PowerData.new env).power_mode = PowerMode.unknown) := by
  refine ⟨rfl, ?_, ?_, ?_, ?_⟩
  · intro h
    simp [refresh_power_mode, h]
  · intro h1 h2
    simp [refresh_power_mode, h1, h2]
  · intro h1 h2
    simp [refresh_power_mode, h1, h2]
  · intro env he
    simp [PowerData.new, he, refresh_power_mode]

/-- Witness for C8 at the low-power marker text. -/
theorem c8_power_mode_probe_witness :
    (refresh_power_mode ⟨false, none, none, 0, 0, 0, 0, PowerMode.unknown⟩
        (some "lowpowermode 1")).power_mode = PowerMode.lowPower :=
  (c8_power_mode_probe ⟨false, none, none, 0, 0, 0, 0, PowerMode.unknown⟩
    "lowpowermode 1").2.1 (by decide)

/-- Claim C9: when no subscription exists or the sample call fails, the
refresh degrades to the fallback estimator and leaves the retained
snapshot, its timestamp and the subscription state unchanged. -/
theorem c9_failure_keeps_snapshot (s : PowerData) (env : RefreshEnv)
    (h : s.subscription = false ∨ env.sampleResult = none) :
    refresh_power_metrics s env = fallback_power_estimate s env.cpuUsages ∧
    (refresh_power_metrics s env).last_sample = s.last_sample ∧
    (refresh_power_metrics s env).last_sample_time = s.last_sample_time ∧
    (refresh_power_metrics s env).subscription = s.subscription := by
  have heq : refresh_power_metrics s env = fallback_power_estimate s env.cpuUsages := by
    unfold refresh_power_metrics
    rcases h with h | h
    · simp [h]
    · by_cases hs : s.subscription = false
      · simp [hs]
      · simp [hs, h]
  refine ⟨heq, ?_, ?_, ?_⟩ <;> rw [heq] <;> rfl

/-- Witness for C9 at a concrete subscription-less state. -/
theorem c9_failure_keeps_snapshot_witness :
    refresh_power_metrics ⟨false, some 3, some 5, 1, 2, 3, 6, PowerMode.automatic⟩
        ⟨none, none, 0, [], 0⟩ =
      fallback_power_estimate ⟨false, some 3, some 5, 1, 2, 3, 6, PowerMode.automatic⟩ [] :=
  (c9_failure_keeps_snapshot ⟨false, some 3, some 5, 1, 2, 3, 6, PowerMode.automatic⟩
    ⟨none, none, 0, [], 0⟩ (Or.inl rfl)).1

/-- Claim C10: a channel whose lowercased name contains both "gpu" and
"ane" is credited to GPU energy only, never to ANE: the gpu branch
precedes the ane branch. -/
theorem c10_gpu_ane_precedence (name u : String) (value : Int)
    (hg : containsSub (lowerStr name) "gpu" = true)
    (_ha : containsSub (lowerStr name) "ane" = true) :
    sumEnergies [⟨name, u, value⟩] = ⟨0, energy_to_joules value u, 0⟩ := by
  simp [sumEnergies, sumChannel, joulesOf, hg]

/-- Witness for C10 at a name containing both substrings. -/
theorem c10_gpu_ane_precedence_witness :
    sumEnergies [⟨"GPU ANE", "uJ", 1000000⟩] =
      ⟨0, energy_to_joules 1000000 "uJ", 0⟩ :=
  c10_gpu_ane_precedence "GPU ANE" "uJ" 1000000 (by decide) (by decide)

/-- Counterexample to claim C2 as stated: a facade constructed with a
working subscription already holds a baseline snapshot (taken inside
`PowerData::new`), so the very first `refresh()` computes a delta and
changes the reported wattage from its pre-call value 0 to 1 W here. -/
theorem c2_counterexample :
    cexState0.subscription = true ∧
    cexState0.last_sample = some 0 ∧
    cexState0.cpu_power = 0 ∧
    (PowerData.refresh cexState0 cexEnv none).cpu_power = 1 := by
  refine ⟨rfl, rfl, rfl, ?_⟩
  simp +decide [PowerData.refresh, cexState0, cexEnv, PowerData.new, refresh_power_mode,
    refresh_power_metrics, calculate_power_from_delta, sumEnergies, sumChannel, joulesOf,
    energy_to_joules, List.foldl]
  norm_num

/-- Claim C2 as amended: `refresh()` stores a baseline snapshot and
leaves all wattages unchanged exactly when no previous snapshot or
timestamp is retained; and construction with a working subscription
already stores the construction-time sample as that baseline, so the no-
computation refresh happens only when the construction-time sample
failed. -/
theorem c2_baseline_refresh (s : PowerData) (env : RefreshEnv) (k : Nat)
    (hsub : s.subscription = true)
    (hsample : env.sampleResult = some k)
    (hnone : s.last_sample = none ∨ s.last_sample_time = none) :
    (refresh_power_metrics s env).cpu_power = s.cpu_power ∧
    (refresh_power_metrics s env).gpu_power = s.gpu_power ∧
    (refresh_power_metrics s env).ane_power = s.ane_power ∧
    (refresh_power_metrics s env).total_system_power = s.total_system_power ∧
    (refresh_power_metrics s env).last_sample = some k ∧
    (refresh_power_metrics s env).last_sample_time = some env.now ∧
    (∀ nenv : NewEnv, nenv.subscriptionOk = true →
      (PowerData.new nenv).last_sample = nenv.initialSample) := by
  have hs : ¬(s.subscription = false) := by simp [hsub]
  have heq : refresh_power_metrics s env =
      { s with last_sample := some k, last_sample_time := some env.now } := by
    unfold refresh_power_metrics
    rcases hnone with h | h
    · simp [hs, hsample, h]
    · cases hls : s.last_sample with
      | none => simp [hs, hsample, hls]
      | some p => simp [hs, hsample, hls, h]
  refine ⟨?_, ?_, ?_, ?_, ?_, ?_, ?_⟩
  · rw [heq]
  · rw [heq]
  · rw [heq]
  · rw [heq]
  · rw [heq]
  · rw [heq]
  · intro nenv hok
    obtain ⟨hl, -, -⟩ := refresh_power_mode_snapshot
      { subscription := nenv.subscriptionOk
        last_sample := if nenv.subscriptionOk then nenv.initialSample else none
        last_sample_time :=
          (if nenv.subscriptionOk then nenv.initialSample else none).map
            (fun _ => nenv.startTime)
        cpu_power := 0
        gpu_power := 0
        ane_power := 0
        total_system_power := 0
        power_mode := PowerMode.unknown } nenv.cmdOutput
    unfold PowerData.new
    rw [hl]
    simp [hok]

/-- Witness for the amended C2 at a facade whose construction-time sample
failed. -/
theorem c2_baseline_refresh_witness :
    (refresh_power_metrics (PowerData.new ⟨true, none, 0, none⟩)
        ⟨some 0, none, 0, [], 0⟩).cpu_power =
      (PowerData.new ⟨true, none, 0, none⟩).cpu_power ∧
    (refresh_power_metrics (PowerData.new ⟨true, none, 0, none⟩)
        ⟨some 0, none, 0, [], 0⟩).last_sample = some 0 :=
  ⟨(c2_baseline_refresh (PowerData.new ⟨true, none, 0, none⟩)
      ⟨some 0, none, 0, [], 0⟩ 0 rfl rfl (Or.inl rfl)).1,
   (c2_baseline_refresh (PowerData.new ⟨true, none, 0, none⟩)
      ⟨some 0, none, 0, [], 0⟩ 0 rfl rfl (Or.inl rfl)).2.2.2.2.1⟩

/-- Claim C1, evaluated at the failing lifetime: with a working
subscription, a successful construction sample, and one refresh whose
delta snapshot lacks the channel list, the snapshots and the channel
dictionary are balanced, but the delta snapshot is acquired once and
released zero times, and the subscription handle is likewise never
released — the code violates the exactly-once release property. -/
theorem c1_release_imbalance :
    acqCount leakTrace Res.subscription = 1 ∧ relCount leakTrace Res.subscription = 0 ∧
    acqCount leakTrace (Res.delta 0) = 1 ∧ relCount leakTrace (Res.delta 0) = 0 ∧
    acqCount leakTrace (Res.snapshot 0) = 1 ∧ relCount leakTrace (Res.snapshot 0) = 1 ∧
    acqCount leakTrace (Res.snapshot 1) = 1 ∧ relCount leakTrace (Res.snapshot 1) = 1 ∧
    acqCount leakTrace Res.channels = 1 ∧ relCount leakTrace Res.channels = 1 ∧
    acqCount leakTrace Res.chanDict = 1 ∧ relCount leakTrace Res.chanDict = 1 := by
  decide

end Jolt
